import Mathlib

set_option maxHeartbeats 1000000
set_option maxRecDepth 100000

/-!
Shallow embedding of `add_x86_64_support.py`, a one-shot textual patch
script for the Telegram-iOS build tree.  File contents are modelled as
`String` values (and line sequences as `List String`); filesystem effects
of each patch step are modelled as explicit effect records that say
whether a backup was created, whether the file was written, and what
content would be written.  All definitions are executable and mirror the
Python source line by line.
-/

/-- Python substring test `sub in s`, on character lists. -/
def containsSub (pat : List Char) : List Char → Bool
  | [] => pat.isEmpty
  | c :: cs => pat.isPrefixOf (c :: cs) || containsSub pat cs

/-- Python substring test `sub in s` for strings. -/
def strContains (s sub : String) : Bool := containsSub sub.toList s.toList

/-- Fuel-indexed model of Python `str.replace`: replaces the leftmost
occurrence of `pat`, then continues after the replacement; fuel bounds the
number of steps, and `replFuel` is always called with fuel equal to the
length of the scanned list, which never runs out. -/
def replFuel (pat rep : List Char) : Nat → List Char → List Char
  | _, [] => []
  | 0, s => s
  | n + 1, c :: cs =>
    if !pat.isEmpty && pat.isPrefixOf (c :: cs) then
      rep ++ replFuel pat rep n (List.drop (pat.length - 1) cs)
    else
      c :: replFuel pat rep n cs

/-- Python `s.replace(pat, rep)` (all non-overlapping occurrences,
leftmost first). -/
def strReplace (s pat rep : String) : String :=
  ⟨replFuel pat.toList rep.toList s.toList.length s.toList⟩

/-- Python `line.strip()` on a character list (leading and trailing
whitespace removed). -/
def stripChars (l : List Char) : List Char :=
  ((l.dropWhile Char.isWhitespace).reverse.dropWhile Char.isWhitespace).reverse

/-- Python `line[:len(line) - len(line.lstrip())]`: the leading-whitespace
run of a line. -/
def leadingChars (l : String) : List Char := l.toList.takeWhile Char.isWhitespace

/-- The marker literal searched for by `patch_genrule_build_files`
(source line 514). -/
def targetCpuMarker : String := "elif [ \"$(TARGET_CPU)\" == \"ios_sim_arm64\" ]; then"

/-- The fixed text of the new marker line added for the duplicated block
(source line 542, without the indentation prefix). -/
def newMarkerText : String := "elif [ \"$(TARGET_CPU)\" == \"ios_x86_64\" ]; then"

/-- Marker test for one line (source line 523: substring containment). -/
def containsMarker (l : String) : Bool := strContains l targetCpuMarker

/-- Terminator test (source line 531): the stripped line starts with
`elif ` or `else`, or is exactly `fi`. -/
def isTerminator (l : String) : Bool :=
  let t := stripChars l.toList
  "elif ".toList.isPrefixOf t || "else".toList.isPrefixOf t || t == "fi".toList

/-- The inner while loop of the duplicator (source lines 525-537): collect
body lines until a terminator line (not consumed) or end of input.
Returns (body, remaining lines starting at the terminator). -/
def collectBody : List String → List String × List String
  | [] => ([], [])
  | l :: ls =>
    if isTerminator l then ([], l :: ls)
    else
      let r := collectBody ls
      (l :: r.1, r.2)

/-- Indentation inference (source lines 527, 534-535): the leading
whitespace of the first body line that is non-blank and actually has
leading whitespace; empty string when there is none. -/
def inferIndent : List String → String
  | [] => ""
  | l :: ls =>
    if !(stripChars l.toList).isEmpty && !(leadingChars l).isEmpty then ⟨leadingChars l⟩
    else inferIndent ls

/-- Body-line rewriting for the duplicated block (source lines 545-547):
first replace `aarch64` by `x86_64`, then `arm64` by `x86_64`. -/
def rewriteLine (l : String) : String :=
  strReplace (strReplace l "aarch64" "x86_64") "arm64" "x86_64"

/-- The new marker line (source line 542): inferred indentation followed
by the fixed x86_64 marker text. -/
def newMarkerLine (indent : String) : String := indent ++ newMarkerText

/-- Fuel-indexed model of the outer while loop of the duplicator (source
lines 516-555).  Each step either copies a non-marker line, or, on a
marker line, copies the marker and its body and then appends the
duplicated block (new marker line plus rewritten body) before resuming at
the terminator line.  The Bool is the `modified` flag.  The fuel is
always instantiated with the length of the line list, which never runs
out because every step consumes at least one line. -/
def dupFuel : Nat → List String → List String × Bool
  | _, [] => ([], false)
  | 0, ls => (ls, false)
  | n + 1, l :: ls =>
    if containsMarker l then
      let body := (collectBody ls).1
      let rest := (collectBody ls).2
      let tail := dupFuel n rest
      ((l :: body) ++ (newMarkerLine (inferIndent body) :: body.map rewriteLine) ++ tail.1, true)
    else
      let tail := dupFuel n ls
      (l :: tail.1, tail.2)

/-- The genrule block duplicator on a line sequence: output lines and the
`modified` flag. -/
def duplicateBlocks (ls : List String) : List String × Bool := dupFuel ls.length ls

/-- Companion to `dupFuel`: the (marker line, body) pairs found by the
scan, in order. -/
def blocksFuel : Nat → List String → List (String × List String)
  | _, [] => []
  | 0, _ => []
  | n + 1, l :: ls =>
    if containsMarker l then
      (l, (collectBody ls).1) :: blocksFuel n (collectBody ls).2
    else
      blocksFuel n ls

/-- The marker blocks found by the duplicator scan. -/
def markerBlocks (ls : List String) : List (String × List String) := blocksFuel ls.length ls

/-- Python `content.split(chr(10))`: split on every newline, keeping
empty segments. -/
def splitOnNl : List Char → List (List Char)
  | [] => [[]]
  | c :: cs =>
    match splitOnNl cs with
    | [] => [[]]
    | r :: rs => if c = '\n' then [] :: r :: rs else (c :: r) :: rs

/-- Line splitting of a file content (source line 516). -/
def splitLines (c : String) : List String := (splitOnNl c.toList).map (fun l => ⟨l⟩)

/-- Python newline join (source line 558). -/
def joinLines (ls : List String) : String := ⟨List.intercalate ['\n'] (ls.map String.toList)⟩

/-- Content-level duplicator (source lines 511-558): when the marker
occurs in the content, run the line scan and rejoin if modified;
otherwise the content is returned unchanged with `modified = false`. -/
def duplicateContent (c : String) : String × Bool :=
  if strContains c targetCpuMarker then
    let p := duplicateBlocks (splitLines c)
    (if p.2 then joinLines p.1 else c, p.2)
  else (c, false)

/-- Effect record of one single-file patch step: the returned success
boolean, whether a backup file was created, whether the target file was
written, and the content written (if any). -/
structure StepEffect where
  ok : Bool
  backedUp : Bool
  wrote : Bool
  written : Option String
deriving DecidableEq

/-- Shared control shape of the seven single-file patch functions
(source lines 40-461): missing file reports failure without touching
anything; a content already containing the step marker literal is a
success no-op; dry-run is a success no-op; otherwise backup, transform
and write, reporting success. -/
def runStep (transform : String → String) (alreadyMark : String)
    (present : Bool) (content : String) (dryRun : Bool) : StepEffect :=
  if !present then ⟨false, false, false, none⟩
  else if strContains content alreadyMark then ⟨true, false, false, none⟩
  else if dryRun then ⟨true, false, false, none⟩
  else ⟨true, true, true, some (transform content)⟩

/-- The replacement content written by `patch_build_system_build`
(source lines 57-76); note that it is the whole new file content, not an
insertion. -/
def new_config_settings : String := "\nconfig_setting(\n\tname = \"ios_sim_arm64\",\n\tvalues = \x7b\"cpu\": \"ios_sim_arm64\"\x7d,\n)\n\nconfig_setting(\n\tname = \"ios_sim_x86_64\",\n\tvalues = \x7b\"cpu\": \"ios_x86_64\"\x7d,\n)\n\nconfig_setting(\n\tname = \"ios_x86_64\",\n\tvalues = \x7b\"cpu\": \"ios_x86_64\"\x7d,\n)\n\nexports_files([\n    \"GenerateStrings/GenerateStrings.py\",\n])\n"

/-- Content transformation of step 1 (source lines 84-85): the target
content is discarded and replaced by `new_config_settings`. -/
def buildSystemTransform (_content : String) : String := new_config_settings

/-- Step 1, `patch_build_system_build` (source lines 40-88). -/
def patch_build_system_build (present : Bool) (content : String) (dryRun : Bool) : StepEffect :=
  runStep buildSystemTransform "ios_sim_x86_64" present content dryRun

/-- Shared head of the old and new `arch_specific_sources` literals of
step 2 (source lines 114-131). -/
def archSourcesHead : String := "arch_specific_sources = select(\x7b\n    \"@build_bazel_rules_apple//apple:ios_arm64\": common_arm_specific_sources + arm64_specific_sources,\n    \"//build-system:ios_sim_arm64\": common_arm_specific_sources + arm64_specific_sources,\n"

/-- Shared closing text of the webrtc select literals. -/
def archTail : String := "\x7d)"

/-- Source lines 114-117: the text replaced in third-party/webrtc/BUILD. -/
def old_arch_specific_sources : String := archSourcesHead ++ archTail

/-- Leading block of the new `arch_specific_sources` literal
(source lines 119-124). -/
def x86SourcesHeadBlock : String := "# x86_64 uses generic C implementations instead of NEON\nx86_64_specific_sources = [\"webrtc/\" + path for path in [\n    \"common_audio/signal_processing/complex_bit_reverse.c\",\n    \"common_audio/signal_processing/filter_ar_fast_q12.c\",\n]]\n\n"

/-- New select branches inserted for `arch_specific_sources`
(source lines 128-130). -/
def x86SourcesNewBranches : String := "    \"//build-system:ios_sim_x86_64\": x86_64_specific_sources,\n    \"//build-system:ios_x86_64\": x86_64_specific_sources,\n    \"//conditions:default\": x86_64_specific_sources,\n"

/-- Source lines 119-131: the replacement text for
`arch_specific_sources`. -/
def new_arch_specific_sources : String :=
  x86SourcesHeadBlock ++ archSourcesHead ++ x86SourcesNewBranches ++ archTail

/-- Shared head of the old and new `arch_specific_cflags` literals of
step 2 (source lines 136-152). -/
def archCflagsHead : String := "arch_specific_cflags = select(\x7b\n    \"@build_bazel_rules_apple//apple:ios_arm64\": common_flags + arm64_specific_flags,\n    \"//build-system:ios_sim_arm64\": common_flags + arm64_specific_flags,\n"

/-- Source lines 136-139: the text replaced for `arch_specific_cflags`. -/
def old_arch_specific_cflags : String := archCflagsHead ++ archTail

/-- Leading block of the new `arch_specific_cflags` literal
(source lines 141-145). -/
def x86CflagsHeadBlock : String := "x86_64_specific_flags = [\n    \"-DWEBRTC_ARCH_X86_64\",\n    \"-DWEBRTC_ARCH_X86_FAMILY\",\n]\n\n"

/-- New select branches inserted for `arch_specific_cflags`
(source lines 149-151). -/
def x86CflagsNewBranches : String := "    \"//build-system:ios_sim_x86_64\": common_flags + x86_64_specific_flags,\n    \"//build-system:ios_x86_64\": common_flags + x86_64_specific_flags,\n    \"//conditions:default\": common_flags + x86_64_specific_flags,\n"

/-- Source lines 141-152: the replacement text for
`arch_specific_cflags`. -/
def new_arch_specific_cflags : String :=
  x86CflagsHeadBlock ++ archCflagsHead ++ x86CflagsNewBranches ++ archTail

/-- Content transformation of step 2 (source lines 133, 154): two
sequential fixed-string replacements. -/
def webrtcTransform (content : String) : String :=
  strReplace (strReplace content old_arch_specific_sources new_arch_specific_sources)
    old_arch_specific_cflags new_arch_specific_cflags

/-- Step 2, `patch_webrtc_build` (source lines 91-160). -/
def patch_webrtc_build (present : Bool) (content : String) (dryRun : Bool) : StepEffect :=
  runStep webrtcTransform "ios_sim_x86_64" present content dryRun

/-- Shared head of the old and new configuration literals of step 7
(source lines 370-386 and 390-406). -/
def makeCommonHead : String := "        elif configuration == \x27release_arm64\x27:\n            self.configuration_args = [\n                # bazel optimized build configuration\n                \x27-c\x27, \x27opt\x27,\n\n                # Build single-architecture binaries. It is almost 2 times faster is 32-bit support is not required.\n                \x27--ios_multi_cpus=arm64\x27,\n\n                # Always build universal Watch binaries.\n                \x27--watchos_cpus=arm64_32\x27,\n\n                # Generate DSYM files when building.\n                \x27--apple_generate_dsym\x27,\n\n                # Require DSYM files as build output.\n                \x27--output_groups=+dsyms\x27,\n            ] + self.common_release_args\n"

/-- Shared tail of the old and new configuration literals of step 7
(source lines 387-388 and 429-430). -/
def makeElseTail : String := "        else:\n            raise Exception(\x27Unknown configuration \x7b\x7d\x27.format(configuration))"

/-- The two new configuration branches inserted by step 7 (source lines
407-428). -/
def makeX86Configs : String := "        elif configuration == \x27debug_sim_x86_64\x27:\n            self.configuration_args = [\n                # bazel debug build configuration\n                \x27-c\x27, \x27dbg\x27,\n\n                # Build for x86_64 simulator (Intel Macs)\n                \x27--ios_multi_cpus=x86_64\x27,\n\n                # Always build universal Watch binaries.\n                \x27--watchos_cpus=arm64_32\x27\n            ] + self.common_debug_args\n        elif configuration == \x27release_sim_x86_64\x27:\n            self.configuration_args = [\n                # bazel optimized build configuration\n                \x27-c\x27, \x27opt\x27,\n\n                # Build for x86_64 simulator (Intel Macs)\n                \x27--ios_multi_cpus=x86_64\x27,\n\n                # Always build universal Watch binaries.\n                \x27--watchos_cpus=arm64_32\x27\n            ] + self.common_release_args\n"

/-- Source lines 370-388: the text replaced in Make.py. -/
def old_release_arm64 : String := makeCommonHead ++ makeElseTail

/-- Source lines 390-430: the replacement text for Make.py
configurations. -/
def new_configurations : String := makeCommonHead ++ makeX86Configs ++ makeElseTail

/-- Shared head of the old and new argument-parser choices literals
(source lines 435-439 and 444-448). -/
def choicesHead : String := "        choices=[\n            \x27debug_arm64\x27,\n            \x27debug_sim_arm64\x27,\n            \x27release_sim_arm64\x27,\n            \x27release_arm64\x27,\n"

/-- Shared tail of the choices literals (source lines 440-442 and
451-453). -/
def choicesTail : String := "        ],\n        required=True,\n        help=\x27Build configuration\x27"

/-- The two new choices inserted (source lines 449-450). -/
def choicesNew : String := "            \x27debug_sim_x86_64\x27,\n            \x27release_sim_x86_64\x27,\n"

/-- Source lines 435-442: the choices text replaced in Make.py. -/
def old_choices : String := choicesHead ++ choicesTail

/-- Source lines 444-453: the replacement choices text. -/
def new_choices : String := choicesHead ++ choicesNew ++ choicesTail

/-- Content transformation of step 7 (source lines 432, 455): two
sequential fixed-string replacements. -/
def makePyTransform (content : String) : String :=
  strReplace (strReplace content old_release_arm64 new_configurations) old_choices new_choices

/-- Step 7, `patch_make_py` (source lines 347-461). -/
def patch_make_py (present : Bool) (content : String) (dryRun : Bool) : StepEffect :=
  runStep makePyTransform "debug_sim_x86_64" present content dryRun

/-- Regular-expression fragment used by the `re.sub` patterns of steps
3-6: a piece is either a literal character sequence or a greedy star
over a one-character class (these patterns use only `\s*`, `[^}]*` and
`[^\]]*`, besides literals and escaped literal characters). -/
inductive RePiece where
  | lit : List Char → RePiece
  | star : (Char → Bool) → RePiece

/-- Literal regex piece built from a string. -/
def reLit (s : String) : RePiece := RePiece.lit s.toList

/-- The `\s*` piece; the whitespace class is `Char.isWhitespace`, as in
the rest of this file. -/
def wsStar : RePiece := RePiece.star Char.isWhitespace

/-- Character class of `[^}]`. -/
def notRBrace (c : Char) : Bool := c ≠ '\x7d'

/-- Character class of `[^\]]`. -/
def notRBracket (c : Char) : Bool := c ≠ ']'

mutual
/-- Backtracking matcher for a piece sequence at the start of `s`:
returns the matched segment and the remaining characters.  A greedy
star tries the longest consumption first and gives characters back on
failure of the rest, exactly the Python re engine order.  The fuel
bounds the depth of the search path; every caller passes `matchBound`,
which strictly dominates the deepest possible path, so the
fuel-exhaustion branch is never reached. -/
def reFuel : Nat → List RePiece → List Char → Option (List Char × List Char)
  | 0, _, _ => none
  | _ + 1, [], s => some ([], s)
  | n + 1, RePiece.lit l :: ps, s =>
    if l.isPrefixOf s then
      match reFuel n ps (List.drop l.length s) with
      | some mr => some (l ++ mr.1, mr.2)
      | none => none
    else none
  | n + 1, RePiece.star p :: ps, s => starFuel n ps s ((s.takeWhile p).length)

/-- Greedy search for one star piece: try consuming `k` class
characters, largest first, backtracking to `k - 1` on failure. -/
def starFuel : Nat → List RePiece → List Char → Nat → Option (List Char × List Char)
  | 0, _, _, _ => none
  | n + 1, ps, s, k =>
    match reFuel n ps (List.drop k s) with
    | some mr => some (List.take k s ++ mr.1, mr.2)
    | none =>
      match k with
      | 0 => none
      | k' + 1 => starFuel n ps s k'

/-- Matcher for a two-group pattern `(A)(B)` at the start of `s`:
returns the two group texts and the remaining characters.  The stars of
group A backtrack through the whole continuation, group B included,
exactly as in the joint pattern `AB`; the group boundary sits where the
pieces of A end. -/
def reFuel2 : Nat → List RePiece → List RePiece → List Char →
    Option ((List Char × List Char) × List Char)
  | 0, _, _, _ => none
  | n + 1, [], ps2, s =>
    match reFuel n ps2 s with
    | some mr => some (([], mr.1), mr.2)
    | none => none
  | n + 1, RePiece.lit l :: ps, ps2, s =>
    if l.isPrefixOf s then
      match reFuel2 n ps ps2 (List.drop l.length s) with
      | some gr => some ((l ++ gr.1.1, gr.1.2), gr.2)
      | none => none
    else none
  | n + 1, RePiece.star p :: ps, ps2, s => star2Fuel n ps ps2 s ((s.takeWhile p).length)

/-- Greedy star search inside group A of a two-group pattern. -/
def star2Fuel : Nat → List RePiece → List RePiece → List Char → Nat →
    Option ((List Char × List Char) × List Char)
  | 0, _, _, _, _ => none
  | n + 1, ps, ps2, s, k =>
    match reFuel2 n ps ps2 (List.drop k s) with
    | some gr => some ((List.take k s ++ gr.1.1, gr.1.2), gr.2)
    | none =>
      match k with
      | 0 => none
      | k' + 1 => star2Fuel n ps ps2 s k'
end

/-- Fuel bound for one match search: a search path descends at most
once per piece plus once per candidate star width, and every star
width is bounded by the remaining input length, so this product
strictly dominates the deepest path. -/
def matchBound (nPieces len : Nat) : Nat := (nPieces + 2) * (len + 2)

/-- Python `re.sub` for a two-group pattern with replacement template
group1-insertion-group2: scan left to right; at a position where the
pattern matches, emit the leftmost-greedy match with the insertion
placed between the two groups and continue after the match; otherwise
copy one character.  The outer fuel is instantiated with the input
length, which suffices because every match of the step 3-6 patterns is
nonempty (group A starts with a nonempty literal). -/
def reSubFuel (g1 g2 : List RePiece) (ins : List Char) : Nat → List Char → List Char
  | _, [] => []
  | 0, s => s
  | n + 1, c :: cs =>
    match reFuel2 (matchBound (g1.length + g2.length) (c :: cs).length) g1 g2 (c :: cs) with
    | some gr => gr.1.1 ++ ins ++ gr.1.2 ++ reSubFuel g1 g2 ins n gr.2
    | none => c :: reSubFuel g1 g2 ins n cs

/-- String-level two-group `re.sub`. -/
def strReSub (g1 g2 : List RePiece) (ins : String) (s : String) : String :=
  ⟨reSubFuel g1 g2 ins.toList s.toList.length s.toList⟩

/-- Group 1 of the libyuv pattern (source line 187). -/
def libyuvG1 : List RePiece :=
  [reLit "arch_specific_cflags", wsStar, reLit "=", wsStar, reLit "select(\x7b",
   RePiece.star notRBrace, reLit "\"//build-system:ios_sim_arm64\":", wsStar,
   reLit "common_flags", wsStar, reLit "+", wsStar, reLit "arm64_specific_flags,"]

/-- Group 2 shared by all four `re.sub` patterns of steps 3-6:
`\s*\}\)`. -/
def selectTailG2 : List RePiece := [wsStar, reLit "\x7d)"]

/-- Insertion text of the `common_flags` replacement templates (source
lines 189-193 and 291-295): what stands between the two re-emitted
groups. -/
def selectFlagsInsert : String :=
  "\n    \"//build-system:ios_sim_x86_64\": common_flags,\n    \"//build-system:ios_x86_64\": common_flags,\n    \"//conditions:default\": common_flags,\n"

/-- Insertion text of the empty-list replacement templates (source
lines 229-233, 240-244, 251-255 and 332-336). -/
def selectEmptyInsert : String :=
  "\n    \"//build-system:ios_sim_x86_64\": [],\n    \"//build-system:ios_x86_64\": [],\n    \"//conditions:default\": [],\n"

/-- Content transformation of step 3 (source lines 187-195). -/
def libyuvTransform (content : String) : String :=
  strReSub libyuvG1 selectTailG2 selectFlagsInsert content

/-- Step 3, `patch_libyuv_build` (source lines 163-201). -/
def patch_libyuv_build (present : Bool) (content : String) (dryRun : Bool) : StepEffect :=
  runStep libyuvTransform "ios_sim_x86_64" present content dryRun

/-- Group 1 of the openh264 sources pattern (source line 228). -/
def oh264SourcesG1 : List RePiece :=
  [reLit "\"//build-system:ios_sim_arm64\":", wsStar, reLit "arm64_specific_sources,"]

/-- Group 1 of the openh264 copts pattern (source line 239). -/
def oh264CoptsG1 : List RePiece :=
  [reLit "\"//build-system:ios_sim_arm64\":", wsStar, reLit "arm64_specific_copts,"]

/-- Group 1 of the openh264 textual_hdrs pattern (source line 250). -/
def oh264HdrsG1 : List RePiece :=
  [reLit "\"//build-system:ios_sim_arm64\":", wsStar, reLit "arm64_specific_textual_hdrs,"]

/-- Content transformation of step 4 (source lines 227-257): three
sequential substitutions, in source order. -/
def openh264Transform (content : String) : String :=
  strReSub oh264HdrsG1 selectTailG2 selectEmptyInsert
    (strReSub oh264CoptsG1 selectTailG2 selectEmptyInsert
      (strReSub oh264SourcesG1 selectTailG2 selectEmptyInsert content))

/-- Step 4, `patch_openh264_build` (source lines 204-263). -/
def patch_openh264_build (present : Bool) (content : String) (dryRun : Bool) : StepEffect :=
  runStep openh264Transform "ios_sim_x86_64" present content dryRun

/-- Group 1 of the libsrtp pattern (source line 290). -/
def libsrtpG1 : List RePiece :=
  [reLit "\"//build-system:ios_sim_arm64\":", wsStar, reLit "common_flags", wsStar,
   reLit "+", wsStar, reLit "arm64_specific_flags,"]

/-- Content transformation of step 5 (source lines 289-297). -/
def libsrtpTransform (content : String) : String :=
  strReSub libsrtpG1 selectTailG2 selectFlagsInsert content

/-- Step 5, `patch_libsrtp_build` (source lines 266-303). -/
def patch_libsrtp_build (present : Bool) (content : String) (dryRun : Bool) : StepEffect :=
  runStep libsrtpTransform "ios_sim_x86_64" present content dryRun

/-- Group 1 of the crc32c pattern (source line 331). -/
def crc32cG1 : List RePiece :=
  [reLit "\"//build-system:ios_sim_arm64\":", wsStar, reLit "[",
   RePiece.star notRBracket, reLit "],"]

/-- Content transformation of step 6 (source lines 330-338). -/
def crc32cTransform (content : String) : String :=
  strReSub crc32cG1 selectTailG2 selectEmptyInsert content

/-- Step 6, `patch_crc32c_build` (source lines 306-344). -/
def patch_crc32c_build (present : Bool) (content : String) (dryRun : Bool) : StepEffect :=
  runStep crc32cTransform "ios_sim_x86_64" present content dryRun

/-- Effect record of the genrule pass on one file (source lines
481-567): whether a backup was created, whether the file was written,
whether it was counted in `patched_count`, and the written content. -/
structure GenruleFileEffect where
  backedUp : Bool
  wrote : Bool
  counted : Bool
  written : Option String
deriving DecidableEq

/-- Per-file behaviour of `patch_genrule_build_files` (source lines
481-567): a missing file is skipped with a warning; a content already
containing `ios_x86_64` is skipped; in dry-run the file is counted but
untouched; otherwise a backup is made, the duplicator runs, the file is
always rewritten, and the file is counted only when a marker was found. -/
def genruleFileStep (present : Bool) (content : String) (dryRun : Bool) : GenruleFileEffect :=
  if !present then ⟨false, false, false, none⟩
  else if strContains content "ios_x86_64" then ⟨false, false, false, none⟩
  else if dryRun then ⟨false, false, true, none⟩
  else
    let r := duplicateContent content
    ⟨true, true, r.2, some r.1⟩

/-- Step 8, `patch_genrule_build_files` (source lines 464-569): process
each (present, content) file in order; the returned boolean is
`patched_count > 0`. -/
def patch_genrule_build_files (files : List (Bool × String)) (dryRun : Bool) :
    List GenruleFileEffect × Bool :=
  let effs := files.map fun f => genruleFileStep f.1 f.2 dryRun
  (effs, effs.countP (fun e => e.counted) > 0)

/-- Input state of one run of `main`: whether the working-directory
check file exists, and the (present, content) state of every target
file. -/
structure MainInput where
  workdirOk : Bool
  buildSystemFile : Bool × String
  webrtcFile : Bool × String
  libyuvFile : Bool × String
  openh264File : Bool × String
  libsrtpFile : Bool × String
  crc32cFile : Bool × String
  makePyFile : Bool × String
  genruleFiles : List (Bool × String)

/-- The orchestrator `main` (source lines 572-649).  The regex-based
content transformations of steps 3-6 are taken as parameters (their
guard structure, shared with all single-file steps, is `runStep`); the
result is `none` when the working-directory check exits early, otherwise
the seven single-file step effects, the genrule pass effects, and the
final accumulated success boolean, which ANDs only the seven single-file
step results (source lines 607-616: the genrule pass return value is
discarded). -/
def mainRun (libyuvT openh264T libsrtpT crc32cT : String → String)
    (inp : MainInput) (dryRun skipGenrules : Bool) :
    Option (List StepEffect × List GenruleFileEffect × Bool) :=
  if !inp.workdirOk then none
  else
    let effs := [
      patch_build_system_build inp.buildSystemFile.1 inp.buildSystemFile.2 dryRun,
      patch_webrtc_build inp.webrtcFile.1 inp.webrtcFile.2 dryRun,
      runStep libyuvT "ios_sim_x86_64" inp.libyuvFile.1 inp.libyuvFile.2 dryRun,
      runStep openh264T "ios_sim_x86_64" inp.openh264File.1 inp.openh264File.2 dryRun,
      runStep libsrtpT "ios_sim_x86_64" inp.libsrtpFile.1 inp.libsrtpFile.2 dryRun,
      runStep crc32cT "ios_sim_x86_64" inp.crc32cFile.1 inp.crc32cFile.2 dryRun,
      patch_make_py inp.makePyFile.1 inp.makePyFile.2 dryRun ]
    let g := if skipGenrules then ([], false)
             else patch_genrule_build_files inp.genruleFiles dryRun
    some (effs, g.1, effs.all (fun e => e.ok))

open List

/-! Helper lemmas about the duplicator scan. -/

/-- The inner loop splits its input: body and rest concatenate back to
the input lines. -/
theorem collectBody_append : ∀ ls : List String, (collectBody ls).1 ++ (collectBody ls).2 = ls
  | [] => rfl
  | l :: ls => by
    rw [collectBody]
    by_cases h : isTerminator l = true
    · simp [h]
    · simp only [Bool.not_eq_true] at h
      simp [h, collectBody_append ls]

/-- The rest returned by the inner loop is no longer than the input. -/
theorem collectBody_rest_length (ls : List String) : (collectBody ls).2.length ≤ ls.length := by
  conv_rhs => rw [← collectBody_append ls]
  rw [List.length_append]
  exact Nat.le_add_left _ _

/-- When the inner loop stops before the end of input, it stops exactly
on a terminator line. -/
theorem collectBody_head_terminator :
    ∀ ls : List String, ∀ r ∈ (collectBody ls).2.take 1, isTerminator r = true
  | [] => by simp [collectBody]
  | l :: ls => by
    rw [collectBody]
    by_cases h : isTerminator l = true
    · simp [h]
    · simp only [Bool.not_eq_true] at h
      simp only [h, if_false]
      exact collectBody_head_terminator ls

/-- The fuel argument of `dupFuel` is irrelevant once it covers the
length of the input. -/
theorem dupFuel_congr : ∀ (n m : Nat) (ls : List String), ls.length ≤ n → ls.length ≤ m →
    dupFuel n ls = dupFuel m ls := by
  intro n
  induction n with
  | zero =>
    intro m ls hn _
    have : ls = [] := List.eq_nil_of_length_eq_zero (Nat.le_zero.mp hn)
    subst this
    simp [dupFuel]
  | succ n ih =>
    intro m ls hn hm
    cases ls with
    | nil => simp [dupFuel]
    | cons l ls =>
      simp only [List.length_cons] at hn hm
      cases m with
      | zero => omega
      | succ m =>
        rw [dupFuel, dupFuel]
        by_cases h : containsMarker l = true
        · simp only [h, if_true]
          rw [ih m (collectBody ls).2
            (Nat.le_trans (collectBody_rest_length ls) (by omega))
            (Nat.le_trans (collectBody_rest_length ls) (by omega))]
        · simp only [Bool.not_eq_true] at h
          simp only [h, Bool.false_eq_true, if_false]
          rw [ih m ls (by omega) (by omega)]

/-- Unfolding of the duplicator at a marker line. -/
theorem duplicateBlocks_cons_marker (l : String) (ls : List String)
    (h : containsMarker l = true) :
    duplicateBlocks (l :: ls) =
      ((l :: (collectBody ls).1) ++
        (newMarkerLine (inferIndent (collectBody ls).1) ::
          (collectBody ls).1.map rewriteLine) ++
        (duplicateBlocks (collectBody ls).2).1, true) := by
  show dupFuel (ls.length + 1) (l :: ls) = _
  rw [dupFuel]
  simp only [h, if_true]
  rw [dupFuel_congr ls.length (collectBody ls).2.length (collectBody ls).2
    (collectBody_rest_length ls) (Nat.le_refl _)]
  rfl

/-- Unfolding of the duplicator at a non-marker line. -/
theorem duplicateBlocks_cons_nomarker (l : String) (ls : List String)
    (h : containsMarker l = false) :
    duplicateBlocks (l :: ls) = (l :: (duplicateBlocks ls).1, (duplicateBlocks ls).2) := by
  show dupFuel (ls.length + 1) (l :: ls) = _
  rw [dupFuel]
  simp only [h, Bool.false_eq_true, if_false]
  rfl

/-- Every input line survives, unchanged and in order, in the duplicator
output (for any fuel). -/
theorem dupFuel_sublist : ∀ (n : Nat) (ls : List String), ls <+ (dupFuel n ls).1 := by
  intro n
  induction n with
  | zero => intro ls; cases ls <;> simp [dupFuel]
  | succ n ih =>
    intro ls
    cases ls with
    | nil => simp [dupFuel]
    | cons l ls =>
      rw [dupFuel]
      by_cases h : containsMarker l = true
      · simp only [h, if_true]
        have hsplit := collectBody_append ls
        conv_lhs => rw [← hsplit]
        simp only [List.cons_append, List.append_assoc]
        exact (((((ih (collectBody ls).2).trans
          (List.sublist_append_right _ _)).cons _).append_left _).cons₂ l)
      · simp only [Bool.not_eq_true] at h
        simp only [h, Bool.false_eq_true, if_false]
        exact (ih ls).cons₂ l

/-- Line-count accounting for the duplicator: the output length is the
input length plus, per marker block found by the scan, one new marker
line plus the rewritten body lines. -/
theorem dupFuel_length : ∀ (n : Nat) (ls : List String), ls.length ≤ n →
    (dupFuel n ls).1.length =
      ls.length + ((blocksFuel n ls).map (fun b => b.2.length + 1)).sum := by
  intro n
  induction n with
  | zero =>
    intro ls hn
    have : ls = [] := List.eq_nil_of_length_eq_zero (Nat.le_zero.mp hn)
    subst this
    simp [dupFuel, blocksFuel]
  | succ n ih =>
    intro ls hn
    cases ls with
    | nil => simp [dupFuel, blocksFuel]
    | cons l ls =>
      simp only [List.length_cons] at hn
      rw [dupFuel, blocksFuel]
      by_cases h : containsMarker l = true
      · simp only [h, if_true]
        have hsplit := collectBody_append ls
        have hlen : (collectBody ls).1.length + (collectBody ls).2.length = ls.length := by
          rw [← List.length_append, hsplit]
        have hr := ih (collectBody ls).2
          (Nat.le_trans (collectBody_rest_length ls) (by omega))
        simp only [List.length_append, List.length_cons, List.length_map, List.map_cons,
          List.sum_cons]
        omega
      · simp only [Bool.not_eq_true] at h
        simp only [h, Bool.false_eq_true, if_false]
        have := ih ls (by omega)
        simp only [List.length_cons]
        omega

/-- A line sequence with no marker line passes through the duplicator
unchanged, with the modified flag false (for any fuel). -/
theorem dupFuel_no_marker : ∀ (n : Nat) (ls : List String),
    (∀ l ∈ ls, containsMarker l = false) → dupFuel n ls = (ls, false) := by
  intro n
  induction n with
  | zero => intro ls _; cases ls <;> simp [dupFuel]
  | succ n ih =>
    intro ls hml
    cases ls with
    | nil => simp [dupFuel]
    | cons l ls =>
      rw [dupFuel]
      have h := hml l (by simp)
      simp only [h, Bool.false_eq_true, if_false]
      rw [ih ls (fun x hx => hml x (by simp [hx]))]

/-- When no terminator occurs, the inner loop consumes the whole input
as body. -/
theorem collectBody_no_terminator : ∀ ls : List String,
    (∀ x ∈ ls, isTerminator x = false) → collectBody ls = (ls, []) := by
  intro ls
  induction ls with
  | nil => intro _; rfl
  | cons l ls ih =>
    intro h
    rw [collectBody]
    have hl := h l (by simp)
    simp only [hl, Bool.false_eq_true, if_false]
    rw [ih (fun x hx => h x (by simp [hx]))]

/-! Helper lemmas about string replacement. -/

/-- Replacement preserves the scanned list as a subsequence whenever the
pattern is a subsequence of the replacement (for any fuel). -/
theorem replFuel_sublist (pat rep : List Char) (hpr : pat <+ rep) :
    ∀ (n : Nat) (s : List Char), s <+ replFuel pat rep n s := by
  intro n
  induction n with
  | zero => intro s; cases s <;> simp [replFuel]
  | succ n ih =>
    intro s
    cases s with
    | nil => simp [replFuel]
    | cons c cs =>
      rw [replFuel]
      by_cases hc : (!pat.isEmpty && pat.isPrefixOf (c :: cs)) = true
      · rw [if_pos hc]
        have hne : pat ≠ [] := by
          intro he
          rw [he] at hc
          simp at hc
        obtain ⟨t2, ht⟩ := List.isPrefixOf_iff_prefix.mp (Bool.and_elim_right hc)
        have hdrop : List.drop (pat.length - 1) cs = t2 := by
          have h1 : List.drop pat.length (c :: cs) = t2 := by
            rw [← ht]; exact List.drop_left _ _
          cases pat with
          | nil => exact absurd rfl hne
          | cons p ps => simpa using h1
        rw [hdrop, ← ht]
        exact hpr.append (ih t2)
      · rw [if_neg hc]
        exact (ih cs).cons₂ c

/-- String-level replacement preservation. -/
theorem strReplace_sublist (s pat rep : String) (h : pat.toList <+ rep.toList) :
    s.toList <+ (strReplace s pat rep).toList :=
  replFuel_sublist pat.toList rep.toList h s.toList.length s.toList

/-- Concatenation of strings concatenates their character lists. -/
theorem strToList_append (a b : String) : (a ++ b).toList = a.toList ++ b.toList := by
  simp [String.toList, String.data_append]

/-- A head-plus-tail string is a subsequence of the same head and tail
with a prefix block and an inserted block added. -/
theorem string_insert_sublist (p h i t : String) :
    (h ++ t).toList <+ (p ++ h ++ i ++ t).toList := by
  rw [strToList_append, strToList_append, strToList_append, strToList_append,
    List.append_assoc, List.append_assoc]
  exact (List.nil_sublist _).append ((List.Sublist.refl _).append (List.sublist_append_right _ _))

/-- A head-plus-tail string is a subsequence of the same head and tail
with an inserted middle block. -/
theorem string_insert_sublist_mid (h i t : String) :
    (h ++ t).toList <+ (h ++ i ++ t).toList := by
  rw [strToList_append, strToList_append, strToList_append, List.append_assoc]
  exact (List.Sublist.refl _).append (List.sublist_append_right _ _)

/-- The old webrtc sources literal is a subsequence of its replacement. -/
theorem old_sources_sublist_new :
    old_arch_specific_sources.toList <+ new_arch_specific_sources.toList :=
  string_insert_sublist x86SourcesHeadBlock archSourcesHead x86SourcesNewBranches archTail

/-- The old webrtc cflags literal is a subsequence of its replacement. -/
theorem old_cflags_sublist_new :
    old_arch_specific_cflags.toList <+ new_arch_specific_cflags.toList :=
  string_insert_sublist x86CflagsHeadBlock archCflagsHead x86CflagsNewBranches archTail

/-- The old Make.py configurations literal is a subsequence of its
replacement. -/
theorem old_release_sublist_new : old_release_arm64.toList <+ new_configurations.toList :=
  string_insert_sublist_mid makeCommonHead makeX86Configs makeElseTail

/-- The old Make.py choices literal is a subsequence of its replacement. -/
theorem old_choices_sublist_new : old_choices.toList <+ new_choices.toList :=
  string_insert_sublist_mid choicesHead choicesNew choicesTail

/-- The webrtc content transformation preserves every character of the
input, in order. -/
theorem webrtcTransform_sublist (c : String) : c.toList <+ (webrtcTransform c).toList :=
  (strReplace_sublist c old_arch_specific_sources new_arch_specific_sources
      old_sources_sublist_new).trans
    (strReplace_sublist _ old_arch_specific_cflags new_arch_specific_cflags
      old_cflags_sublist_new)

/-- The Make.py content transformation preserves every character of the
input, in order. -/
theorem makePyTransform_sublist (c : String) : c.toList <+ (makePyTransform c).toList :=
  (strReplace_sublist c old_release_arm64 new_configurations old_release_sublist_new).trans
    (strReplace_sublist _ old_choices new_choices old_choices_sublist_new)

/-! Helper lemmas about the two-group regex substitution. -/

/-- Any successful match splits the input exactly: the matched text
(for two groups, group one then group two) followed by the rest
reassembles the input, for all four matchers and any fuel. -/
theorem reMatch_splits : ∀ n : Nat,
    (∀ ps s m r, reFuel n ps s = some (m, r) → m ++ r = s) ∧
    (∀ ps s k m r, starFuel n ps s k = some (m, r) → m ++ r = s) ∧
    (∀ ps ps2 s g h r, reFuel2 n ps ps2 s = some ((g, h), r) → g ++ (h ++ r) = s) ∧
    (∀ ps ps2 s k g h r, star2Fuel n ps ps2 s k = some ((g, h), r) → g ++ (h ++ r) = s) := by
  intro n
  induction n with
  | zero =>
    refine ⟨?_, ?_, ?_, ?_⟩ <;> intros <;> simp_all [reFuel, starFuel, reFuel2, star2Fuel]
  | succ n ih =>
    obtain ⟨ih1, ih2, ih3, ih4⟩ := ih
    have hlit : ∀ (l : List Char) (s : List Char), l.isPrefixOf s = true →
        l ++ List.drop l.length s = s := by
      intro l s hp
      obtain ⟨t, ht⟩ := List.isPrefixOf_iff_prefix.mp hp
      rw [← ht, List.drop_left]
    refine ⟨?_, ?_, ?_, ?_⟩
    · intro ps s m r h
      cases ps with
      | nil =>
        simp only [reFuel, Option.some.injEq, Prod.mk.injEq] at h
        rw [← h.1, ← h.2]
        rfl
      | cons piece ps =>
        cases piece with
        | lit l =>
          simp only [reFuel] at h
          by_cases hp : l.isPrefixOf s = true
          · rw [if_pos hp] at h
            cases hm : reFuel n ps (List.drop l.length s) with
            | none => rw [hm] at h; exact absurd h (by simp)
            | some mr =>
              rw [hm] at h
              simp only [Option.some.injEq, Prod.mk.injEq] at h
              rw [← h.1, ← h.2, List.append_assoc, ih1 _ _ _ _ hm, hlit l s hp]
          · rw [if_neg hp] at h
            exact absurd h (by simp)
        | star p =>
          simp only [reFuel] at h
          exact ih2 _ _ _ _ _ h
    · intro ps s k m r h
      simp only [starFuel] at h
      cases hm : reFuel n ps (List.drop k s) with
      | some mr =>
        rw [hm] at h
        simp only [Option.some.injEq, Prod.mk.injEq] at h
        rw [← h.1, ← h.2, List.append_assoc, ih1 _ _ _ _ hm, List.take_append_drop]
      | none =>
        rw [hm] at h
        cases k with
        | zero => exact absurd h (by simp)
        | succ k' => exact ih2 _ _ _ _ _ h
    · intro ps ps2 s g h2 r h
      cases ps with
      | nil =>
        simp only [reFuel2] at h
        cases hm : reFuel n ps2 s with
        | none => rw [hm] at h; exact absurd h (by simp)
        | some mr =>
          rw [hm] at h
          simp only [Option.some.injEq, Prod.mk.injEq] at h
          rw [← h.1.1, ← h.1.2, ← h.2, List.nil_append]
          exact ih1 _ _ _ _ hm
      | cons piece ps =>
        cases piece with
        | lit l =>
          simp only [reFuel2] at h
          by_cases hp : l.isPrefixOf s = true
          · rw [if_pos hp] at h
            cases hm : reFuel2 n ps ps2 (List.drop l.length s) with
            | none => rw [hm] at h; exact absurd h (by simp)
            | some gr =>
              rw [hm] at h
              simp only [Option.some.injEq, Prod.mk.injEq] at h
              obtain ⟨⟨hg, hh⟩, hr⟩ := h
              have hs := ih3 ps ps2 (List.drop l.length s) gr.1.1 gr.1.2 gr.2
                (by rw [hm])
              rw [← hg, ← hh, ← hr, List.append_assoc, hs, hlit l s hp]
          · rw [if_neg hp] at h
            exact absurd h (by simp)
        | star p =>
          simp only [reFuel2] at h
          exact ih4 _ _ _ _ _ _ _ h
    · intro ps ps2 s k g h2 r h
      simp only [star2Fuel] at h
      cases hm : reFuel2 n ps ps2 (List.drop k s) with
      | some gr =>
        rw [hm] at h
        simp only [Option.some.injEq, Prod.mk.injEq] at h
        obtain ⟨⟨hg, hh⟩, hr⟩ := h
        have hs := ih3 ps ps2 (List.drop k s) gr.1.1 gr.1.2 gr.2 (by rw [hm])
        rw [← hg, ← hh, ← hr, List.append_assoc, hs, List.take_append_drop]
      | none =>
        rw [hm] at h
        cases k with
        | zero => exact absurd h (by simp)
        | succ k' => exact ih4 _ _ _ _ _ _ _ h

/-- The two-group substitution preserves its input as an in-order
subsequence, for any groups, insertion and fuel: the output is the
input with the insertion text added inside each replaced match. -/
theorem reSubFuel_sublist (g1 g2 : List RePiece) (ins : List Char) :
    ∀ (n : Nat) (s : List Char), s <+ reSubFuel g1 g2 ins n s := by
  intro n
  induction n with
  | zero => intro s; cases s <;> simp [reSubFuel]
  | succ n ih =>
    intro s
    cases s with
    | nil => simp [reSubFuel]
    | cons c cs =>
      rw [reSubFuel]
      cases hm : reFuel2 (matchBound (g1.length + g2.length) (c :: cs).length) g1 g2
          (c :: cs) with
      | some gr =>
        obtain ⟨⟨g, h2⟩, r⟩ := gr
        have hsplit := (reMatch_splits _).2.2.1 _ _ _ _ _ _ hm
        dsimp only
        rw [← hsplit]
        simp only [List.append_assoc]
        exact (List.Sublist.refl _).append
          (((ih r).append_left _).trans (List.sublist_append_right _ _))
      | none =>
        exact (ih cs).cons₂ c

/-- String-level preservation for the two-group substitution. -/
theorem strReSub_sublist (g1 g2 : List RePiece) (ins c : String) :
    c.toList <+ (strReSub g1 g2 ins c).toList :=
  reSubFuel_sublist g1 g2 ins.toList c.toList.length c.toList

/-- The libyuv content transformation preserves every character of the
input, in order. -/
theorem libyuvTransform_sublist (c : String) : c.toList <+ (libyuvTransform c).toList :=
  strReSub_sublist libyuvG1 selectTailG2 selectFlagsInsert c

/-- The openh264 content transformation preserves every character of
the input, in order. -/
theorem openh264Transform_sublist (c : String) : c.toList <+ (openh264Transform c).toList :=
  ((strReSub_sublist oh264SourcesG1 selectTailG2 selectEmptyInsert c).trans
    (strReSub_sublist oh264CoptsG1 selectTailG2 selectEmptyInsert _)).trans
    (strReSub_sublist oh264HdrsG1 selectTailG2 selectEmptyInsert _)

/-- The libsrtp content transformation preserves every character of the
input, in order. -/
theorem libsrtpTransform_sublist (c : String) : c.toList <+ (libsrtpTransform c).toList :=
  strReSub_sublist libsrtpG1 selectTailG2 selectFlagsInsert c

/-- The crc32c content transformation preserves every character of the
input, in order. -/
theorem crc32cTransform_sublist (c : String) : c.toList <+ (crc32cTransform c).toList :=
  strReSub_sublist crc32cG1 selectTailG2 selectEmptyInsert c

/-! Claim theorems. -/

/-- C1: at each marker occurrence found by the duplicator scan, the
duplicated block (new marker line plus rewritten body lines) is inserted
directly after the original block body and before the terminator line
(the remaining lines start with a terminator when they are nonempty);
every original line appears unchanged and in its original order in the
output; and the output line count exceeds the input line count by
exactly the duplicated block length (body length plus one) per marker
occurrence. -/
theorem genrule_duplicator_insertion :
    (∀ ls : List String, ls <+ (duplicateBlocks ls).1) ∧
    (∀ ls : List String,
      (duplicateBlocks ls).1.length =
        ls.length + ((markerBlocks ls).map (fun b => b.2.length + 1)).sum) ∧
    (∀ (l : String) (ls : List String), containsMarker l = true →
      duplicateBlocks (l :: ls) =
        ((l :: (collectBody ls).1) ++
          (newMarkerLine (inferIndent (collectBody ls).1) ::
            (collectBody ls).1.map rewriteLine) ++
          (duplicateBlocks (collectBody ls).2).1, true) ∧
      (collectBody ls).1 ++ (collectBody ls).2 = ls ∧
      (∀ r ∈ (collectBody ls).2.take 1, isTerminator r = true)) :=
  ⟨fun ls => dupFuel_sublist ls.length ls,
   fun ls => dupFuel_length ls.length ls (Nat.le_refl _),
   fun l ls h => ⟨duplicateBlocks_cons_marker l ls h, collectBody_append ls,
     collectBody_head_terminator ls⟩⟩

/-- Witness for C1 at a concrete input. -/
theorem genrule_duplicator_insertion_witness :
    containsMarker targetCpuMarker = true ∧
    (duplicateBlocks (targetCpuMarker :: ["a", "fi"]) =
      ((targetCpuMarker :: (collectBody ["a", "fi"]).1) ++
        (newMarkerLine (inferIndent (collectBody ["a", "fi"]).1) ::
          (collectBody ["a", "fi"]).1.map rewriteLine) ++
        (duplicateBlocks (collectBody ["a", "fi"]).2).1, true) ∧
      (collectBody ["a", "fi"]).1 ++ (collectBody ["a", "fi"]).2 = ["a", "fi"] ∧
      (∀ r ∈ (collectBody ["a", "fi"]).2.take 1, isTerminator r = true)) :=
  ⟨by decide, genrule_duplicator_insertion.2.2 targetCpuMarker ["a", "fi"] (by decide)⟩

/-- C2 counterexample: the new marker line is not the matched marker
line with the architecture token substituted.  With a marker line
indented by four spaces and an unindented body, the claim-predicted
line (the matched marker with `ios_sim_arm64` replaced by `ios_x86_64`,
keeping the indentation) does not occur anywhere in the output; the
emitted new marker line is the fixed literal with no indentation. -/
theorem marker_substitution_counterexample :
    strReplace "    elif [ \"$(TARGET_CPU)\" == \"ios_sim_arm64\" ]; then"
        "ios_sim_arm64" "ios_x86_64" =
      "    elif [ \"$(TARGET_CPU)\" == \"ios_x86_64\" ]; then" ∧
    (duplicateBlocks
        ["    elif [ \"$(TARGET_CPU)\" == \"ios_sim_arm64\" ]; then", "foo", "fi"]).1 =
      ["    elif [ \"$(TARGET_CPU)\" == \"ios_sim_arm64\" ]; then", "foo",
       "elif [ \"$(TARGET_CPU)\" == \"ios_x86_64\" ]; then", "foo", "fi"] ∧
    "    elif [ \"$(TARGET_CPU)\" == \"ios_x86_64\" ]; then" ∉
      (duplicateBlocks
        ["    elif [ \"$(TARGET_CPU)\" == \"ios_sim_arm64\" ]; then", "foo", "fi"]).1 :=
  ⟨by decide, by decide, by decide⟩

/-- C2 amended: the new marker line emitted for a duplicated block is
the indentation inferred from the body (empty when no body line has
leading whitespace) concatenated with the fixed literal
`newMarkerText`; the matched marker line text and indentation are not
reused. -/
theorem new_marker_fixed_literal :
    ∀ (l : String) (ls : List String), containsMarker l = true →
      (duplicateBlocks (l :: ls)).1 =
        (l :: (collectBody ls).1) ++
          ((inferIndent (collectBody ls).1 ++ newMarkerText) ::
            (collectBody ls).1.map rewriteLine) ++
          (duplicateBlocks (collectBody ls).2).1 := by
  intro l ls h
  rw [duplicateBlocks_cons_marker l ls h]
  rfl

/-- Witness for the amended C2 at a concrete input with an indented
body. -/
theorem new_marker_fixed_literal_witness :
    containsMarker targetCpuMarker = true ∧
    (duplicateBlocks (targetCpuMarker :: ["  foo", "fi"])).1 =
      (targetCpuMarker :: (collectBody ["  foo", "fi"]).1) ++
        ((inferIndent (collectBody ["  foo", "fi"]).1 ++ newMarkerText) ::
          (collectBody ["  foo", "fi"]).1.map rewriteLine) ++
        (duplicateBlocks (collectBody ["  foo", "fi"]).2).1 :=
  ⟨by decide, new_marker_fixed_literal targetCpuMarker ["  foo", "fi"] (by decide)⟩

/-- C4: duplicated body lines are produced by applying the token rules
in listed order (first `aarch64` to `x86_64`, then `arm64` to
`x86_64`) to every body line; in the concrete instance with body
`a: arm64_flag` the output keeps the original line and places the
rewritten line `a: x86_64_flag` in the duplicated block immediately
after the original block and before the terminator `fi`. -/
theorem body_token_rules_in_order :
    (∀ l : String,
      rewriteLine l = strReplace (strReplace l "aarch64" "x86_64") "arm64" "x86_64") ∧
    (∀ (l : String) (ls : List String), containsMarker l = true →
      (duplicateBlocks (l :: ls)).1 =
        (l :: (collectBody ls).1) ++
          (newMarkerLine (inferIndent (collectBody ls).1) ::
            (collectBody ls).1.map rewriteLine) ++
          (duplicateBlocks (collectBody ls).2).1) ∧
    duplicateBlocks [targetCpuMarker, "a: arm64_flag", "fi"] =
      ([targetCpuMarker, "a: arm64_flag",
        "elif [ \"$(TARGET_CPU)\" == \"ios_x86_64\" ]; then", "a: x86_64_flag", "fi"],
       true) :=
  ⟨fun _ => rfl,
   fun l ls h => by rw [duplicateBlocks_cons_marker l ls h],
   by decide⟩

/-- Witness for C4 at a concrete input. -/
theorem body_token_rules_in_order_witness :
    containsMarker targetCpuMarker = true ∧
    (duplicateBlocks (targetCpuMarker :: ["b: aarch64 arm64", "fi"])).1 =
      (targetCpuMarker :: (collectBody ["b: aarch64 arm64", "fi"]).1) ++
        (newMarkerLine (inferIndent (collectBody ["b: aarch64 arm64", "fi"]).1) ::
          (collectBody ["b: aarch64 arm64", "fi"]).1.map rewriteLine) ++
        (duplicateBlocks (collectBody ["b: aarch64 arm64", "fi"]).2).1 :=
  ⟨by decide,
   body_token_rules_in_order.2.1 targetCpuMarker ["b: aarch64 arm64", "fi"] (by decide)⟩

/-- C10: when a marker line is found but no terminator line follows,
all remaining lines become the block body and the duplicated block
(new marker line plus rewritten body) is appended at the very end of
the output, with the modified flag set. -/
theorem no_terminator_appends_at_end :
    ∀ (l : String) (ls : List String), containsMarker l = true →
      (∀ x ∈ ls, isTerminator x = false) →
      duplicateBlocks (l :: ls) =
        ((l :: ls) ++ (newMarkerLine (inferIndent ls) :: ls.map rewriteLine), true) := by
  intro l ls hm ht
  rw [duplicateBlocks_cons_marker l ls hm, collectBody_no_terminator ls ht]
  simp [duplicateBlocks, dupFuel]

/-- Witness for C10 at a concrete input without a terminator. -/
theorem no_terminator_appends_at_end_witness :
    containsMarker targetCpuMarker = true ∧
    (∀ x ∈ ["  x: arm64"], isTerminator x = false) ∧
    duplicateBlocks (targetCpuMarker :: ["  x: arm64"]) =
      ((targetCpuMarker :: ["  x: arm64"]) ++
        (newMarkerLine (inferIndent ["  x: arm64"]) :: ["  x: arm64"].map rewriteLine),
       true) :=
  ⟨by decide, by decide,
   no_terminator_appends_at_end targetCpuMarker ["  x: arm64"] (by decide) (by decide)⟩

/-- C5: a line sequence with no marker line passes through the
duplicator unchanged with the modified flag false; a content without
the marker substring is returned unchanged; and the per-file genrule
step on such a content (not already patched, not dry-run) reports it
as not counted, writing back exactly the input content. -/
theorem no_marker_is_noop :
    (∀ ls : List String, (∀ l ∈ ls, containsMarker l = false) →
      duplicateBlocks ls = (ls, false)) ∧
    (∀ c : String, strContains c targetCpuMarker = false →
      duplicateContent c = (c, false)) ∧
    (∀ c : String, strContains c targetCpuMarker = false →
      strContains c "ios_x86_64" = false →
      genruleFileStep true c false = ⟨true, true, false, some c⟩) := by
  refine ⟨fun ls h => dupFuel_no_marker ls.length ls h,
    fun c h => by simp [duplicateContent, h], ?_⟩
  intro c h1 h2
  simp [genruleFileStep, h2, duplicateContent, h1]

/-- Witness for C5 at a concrete input. -/
theorem no_marker_is_noop_witness :
    (∀ l ∈ ["hello", "world"], containsMarker l = false) ∧
    duplicateBlocks ["hello", "world"] = (["hello", "world"], false) ∧
    strContains "hello" targetCpuMarker = false ∧
    strContains "hello" "ios_x86_64" = false ∧
    genruleFileStep true "hello" false = ⟨true, true, false, some "hello"⟩ :=
  ⟨by decide, no_marker_is_noop.1 ["hello", "world"] (by decide), by decide, by decide,
   no_marker_is_noop.2.2 "hello" (by decide) (by decide)⟩

/-- C6: a present file whose content already contains the step marker
literal makes every single-file patch step a success no-op (no backup,
no write), for any transformation and any dry-run flag; a genrule file
already containing `ios_x86_64` is likewise skipped (no backup, no
write, not counted). -/
theorem already_patched_is_noop :
    (∀ (t : String → String) (lit c : String) (d : Bool), strContains c lit = true →
      runStep t lit true c d = ⟨true, false, false, none⟩) ∧
    (∀ (c : String) (d : Bool), strContains c "ios_x86_64" = true →
      genruleFileStep true c d = ⟨false, false, false, none⟩) := by
  constructor
  · intro t lit c d h
    simp [runStep, h]
  · intro c d h
    simp [genruleFileStep, h]

/-- Witness for C6 at concrete contents, covering the `ios_sim_x86_64`,
`debug_sim_x86_64` and `ios_x86_64` marker literals. -/
theorem already_patched_is_noop_witness :
    strContains "zz ios_sim_x86_64 tail" "ios_sim_x86_64" = true ∧
    patch_build_system_build true "zz ios_sim_x86_64 tail" false = ⟨true, false, false, none⟩ ∧
    strContains "zz debug_sim_x86_64 tail" "debug_sim_x86_64" = true ∧
    patch_make_py true "zz debug_sim_x86_64 tail" false = ⟨true, false, false, none⟩ ∧
    strContains "zz ios_x86_64 tail" "ios_x86_64" = true ∧
    genruleFileStep true "zz ios_x86_64 tail" false = ⟨false, false, false, none⟩ :=
  ⟨by decide,
   already_patched_is_noop.1 buildSystemTransform "ios_sim_x86_64"
     "zz ios_sim_x86_64 tail" false (by decide),
   by decide,
   already_patched_is_noop.1 makePyTransform "debug_sim_x86_64"
     "zz debug_sim_x86_64 tail" false (by decide),
   by decide,
   already_patched_is_noop.2 "zz ios_x86_64 tail" false (by decide)⟩

/-- C9: in the genrule pass without dry-run, every present file whose
content does not contain `ios_x86_64` gets a backup and a write,
unconditionally; in particular when no marker line is found the
unchanged content is still written back (with the file not counted as
patched). -/
theorem genrule_write_unconditional :
    (∀ c : String, strContains c "ios_x86_64" = false →
      genruleFileStep true c false =
        ⟨true, true, (duplicateContent c).2, some (duplicateContent c).1⟩) ∧
    (∀ c : String, strContains c "ios_x86_64" = false →
      strContains c targetCpuMarker = false →
      genruleFileStep true c false = ⟨true, true, false, some c⟩) := by
  constructor
  · intro c h
    simp [genruleFileStep, h]
  · intro c h1 h2
    simp [genruleFileStep, h1, duplicateContent, h2]

/-- Witness for C9 at a concrete markerless content. -/
theorem genrule_write_unconditional_witness :
    strContains "plain content" "ios_x86_64" = false ∧
    strContains "plain content" targetCpuMarker = false ∧
    genruleFileStep true "plain content" false = ⟨true, true, false, some "plain content"⟩ :=
  ⟨by decide, by decide,
   genrule_write_unconditional.2 "plain content" (by decide) (by decide)⟩

/-- C7 counterexample: the genrule pass does not report the same
success boolean in dry-run as in a real run.  On a single present file
with content `hello` (no marker, not already patched) the dry-run pass
counts the file and returns true, while the real run finds no marker
and returns false. -/
theorem dry_run_count_mismatch :
    (patch_genrule_build_files [(true, "hello")] true).2 = true ∧
    (patch_genrule_build_files [(true, "hello")] false).2 = false :=
  ⟨by decide, by decide⟩

/-- C7 amended: with the dry-run flag set, no step creates a backup or
writes any file; the seven single-file patch functions return the same
success boolean as a real run would; the per-file genrule step writes
nothing either, but in dry-run it counts every present, not yet
patched file, so the genrule pass boolean can differ from the real
run. -/
theorem dry_run_no_backup_no_write :
    (∀ (t : String → String) (lit c : String) (p : Bool),
      (runStep t lit p c true).backedUp = false ∧
      (runStep t lit p c true).wrote = false ∧
      (runStep t lit p c true).written = none ∧
      (runStep t lit p c true).ok = (runStep t lit p c false).ok) ∧
    (∀ (p : Bool) (c : String),
      (genruleFileStep p c true).backedUp = false ∧
      (genruleFileStep p c true).wrote = false ∧
      (genruleFileStep p c true).written = none ∧
      (genruleFileStep p c true).counted = (p && !(strContains c "ios_x86_64"))) := by
  constructor
  · intro t lit c p
    cases p <;> by_cases h : strContains c lit = true <;> simp [runStep, h]
  · intro p c
    cases p <;> by_cases h : strContains c "ios_x86_64" = true <;> simp [genruleFileStep, h]

/-- C8 counterexample: the orchestrator does not accumulate the genrule
pass result.  With the working directory check passing, all seven
single-file steps already patched (success) and the single genrule file
missing, the genrule pass result is false yet the accumulated success
boolean of the run is true, so the step results are not all ANDed. -/
theorem genrule_result_discarded :
    mainRun id id id id
        ⟨true, (true, "ios_sim_x86_64"), (true, "ios_sim_x86_64"), (true, "ios_sim_x86_64"),
         (true, "ios_sim_x86_64"), (true, "ios_sim_x86_64"), (true, "ios_sim_x86_64"),
         (true, "debug_sim_x86_64"), [(false, "x")]⟩ false false =
      some ([⟨true, false, false, none⟩, ⟨true, false, false, none⟩,
             ⟨true, false, false, none⟩, ⟨true, false, false, none⟩,
             ⟨true, false, false, none⟩, ⟨true, false, false, none⟩,
             ⟨true, false, false, none⟩],
            [⟨false, false, false, none⟩], true) ∧
    (patch_genrule_build_files [(false, "x")] false).2 = false :=
  ⟨by decide, by decide⟩

/-- C8 amended: a missing target file makes its single-file step return
false without backup or write; the orchestrator exits early exactly
when the working-directory check fails; otherwise it attempts all
seven single-file steps and the genrule pass, and the final success
boolean is the AND of the seven single-file step results only (the
genrule pass boolean is computed but discarded). -/
theorem orchestrator_missing_and_accumulation :
    (∀ (t : String → String) (lit c : String) (d : Bool),
      runStep t lit false c d = ⟨false, false, false, none⟩) ∧
    (∀ (t3 t4 t5 t6 : String → String) (inp : MainInput) (d s : Bool),
      inp.workdirOk = false → mainRun t3 t4 t5 t6 inp d s = none) ∧
    (∀ (t3 t4 t5 t6 : String → String) (inp : MainInput) (d s : Bool)
      (r : List StepEffect × List GenruleFileEffect × Bool),
      mainRun t3 t4 t5 t6 inp d s = some r →
      r.1.length = 7 ∧
      r.2.2 = r.1.all (fun e => e.ok) ∧
      (s = false → r.2.1 = (patch_genrule_build_files inp.genruleFiles d).1)) := by
  refine ⟨fun t lit c d => by simp [runStep], ?_, ?_⟩
  · intro t3 t4 t5 t6 inp d s h
    simp [mainRun, h]
  · intro t3 t4 t5 t6 inp d s r h
    by_cases hw : inp.workdirOk = true
    · rw [mainRun] at h
      simp only [hw, Bool.not_true, Bool.false_eq_true, if_false, Option.some.injEq] at h
      subst h
      refine ⟨rfl, rfl, fun hs => ?_⟩
      rw [hs]
      rfl
    · simp only [Bool.not_eq_true] at hw
      rw [mainRun] at h
      simp [hw] at h

/-- Witness for the amended C8 at concrete inputs: a missing-file step,
an early working-directory exit, and a completed run with all files
missing. -/
theorem orchestrator_missing_and_accumulation_witness :
    runStep id "k" false "c" false = ⟨false, false, false, none⟩ ∧
    mainRun id id id id
      ⟨false, (true, ""), (true, ""), (true, ""), (true, ""), (true, ""), (true, ""),
       (true, ""), []⟩ false false = none ∧
    ((mainRun id id id id
        ⟨true, (false, ""), (false, ""), (false, ""), (false, ""), (false, ""), (false, ""),
         (false, ""), []⟩ false false =
      some ([⟨false, false, false, none⟩, ⟨false, false, false, none⟩,
             ⟨false, false, false, none⟩, ⟨false, false, false, none⟩,
             ⟨false, false, false, none⟩, ⟨false, false, false, none⟩,
             ⟨false, false, false, none⟩], [], false)) ∧
      ([⟨false, false, false, none⟩, ⟨false, false, false, none⟩,
        ⟨false, false, false, none⟩, ⟨false, false, false, none⟩,
        ⟨false, false, false, none⟩, ⟨false, false, false, none⟩,
        (⟨false, false, false, none⟩ : StepEffect)].length = 7 ∧
       (false : Bool) = [⟨false, false, false, none⟩, ⟨false, false, false, none⟩,
        ⟨false, false, false, none⟩, ⟨false, false, false, none⟩,
        ⟨false, false, false, none⟩, ⟨false, false, false, none⟩,
        (⟨false, false, false, none⟩ : StepEffect)].all (fun e => e.ok))) := by
  refine ⟨orchestrator_missing_and_accumulation.1 id "k" "c" false,
    orchestrator_missing_and_accumulation.2.1 id id id id _ false false rfl,
    ?_⟩
  have h : mainRun id id id id
      ⟨true, (false, ""), (false, ""), (false, ""), (false, ""), (false, ""), (false, ""),
       (false, ""), []⟩ false false =
      some ([⟨false, false, false, none⟩, ⟨false, false, false, none⟩,
             ⟨false, false, false, none⟩, ⟨false, false, false, none⟩,
             ⟨false, false, false, none⟩, ⟨false, false, false, none⟩,
             ⟨false, false, false, none⟩], [], false) := by decide
  have h2 := orchestrator_missing_and_accumulation.2.2 id id id id _ false false _ h
  exact ⟨h, h2.1, h2.2.1⟩

/-- C3 counterexample: the build-system/BUILD step does not preserve
the original content.  On content `hello` (not already patched, file
present, not dry-run) the step writes the fixed config-settings block,
which does not contain the original content even as a scattered
subsequence. -/
theorem build_system_discards_content :
    patch_build_system_build true "hello" false =
      ⟨true, true, true, some new_config_settings⟩ ∧
    ¬ ("hello".toList <+ new_config_settings.toList) :=
  ⟨by decide, by decide⟩

/-- C3 amended: the content transformations of every patch step other
than build-system/BUILD preserve the entire original input (steps 2-7
keep every character unchanged and in order as a subsequence of the
output, the genrule duplicator of step 8 keeps every line), only
inserting new text; the build-system/BUILD step (step 1) instead
writes the fixed `new_config_settings` block, discarding the original
content, whenever the file is present, not already patched and not in
dry-run. -/
theorem patch_transformations_preserve_content :
    (∀ c : String, c.toList <+ (webrtcTransform c).toList) ∧
    (∀ c : String, c.toList <+ (libyuvTransform c).toList) ∧
    (∀ c : String, c.toList <+ (openh264Transform c).toList) ∧
    (∀ c : String, c.toList <+ (libsrtpTransform c).toList) ∧
    (∀ c : String, c.toList <+ (crc32cTransform c).toList) ∧
    (∀ c : String, c.toList <+ (makePyTransform c).toList) ∧
    (∀ ls : List String, ls <+ (duplicateBlocks ls).1) ∧
    (∀ c : String, strContains c "ios_sim_x86_64" = false →
      patch_build_system_build true c false =
        ⟨true, true, true, some new_config_settings⟩) := by
  refine ⟨webrtcTransform_sublist, libyuvTransform_sublist, openh264Transform_sublist,
    libsrtpTransform_sublist, crc32cTransform_sublist, makePyTransform_sublist,
    fun ls => dupFuel_sublist ls.length ls, ?_⟩
  intro c h
  simp [patch_build_system_build, runStep, h, buildSystemTransform]

/-- Witness for the amended C3 at a concrete content. -/
theorem patch_transformations_preserve_content_witness :
    strContains "plain" "ios_sim_x86_64" = false ∧
    patch_build_system_build true "plain" false =
      ⟨true, true, true, some new_config_settings⟩ :=
  ⟨by decide,
   patch_transformations_preserve_content.2.2.2.2.2.2.2 "plain" (by decide)⟩
